import Mathlib

/-!
Shallow embedding of CANdevStudio's compile-time PIMPL / backend-selection
framework (src/common/backend.h, src/common/uibackend.h, src/common/backendiface.h,
src/common/uibackendiface.h) and of the two MainWindow file handlers
(src/gui/mainwindow.cpp).

Modelling conventions:
  * C++ types selectable as backends are identified by natural numbers
    (`BackendTy`); `std::is_base_of<BackendBase<Subject>, T>` becomes the
    Boolean field `TypeEnv.isBaseOf`, and `BackendDefaultBase<Subject>`
    (the registered default backend type) becomes `TypeEnv.defaultTy`.
  * Dynamic allocation (`std::make_unique` inside the owning `WithBackend`
    constructor) is modelled by an allocator `Heap` that hands out fresh
    identifiers; `std::unique_ptr` membership is an `Option Nat` (`none` =
    empty pointer), raw observer pointers are `Option Nat` (`none` = null).
  * A constructor body is a list of `Step`s written down in the exact
    member-initialiser order of the source, interpreted by a fold
    (`runSteps`); the caller-supplied init actions act on the member state
    `PState` of the derived classes.
  * `static_assert`s are a separate compile stage (`compileSelected`,
    `compileUISelected`): a program that fails them never reaches the
    (total) runtime step semantics.
-/

/-! ## Allocation model -/

/-- A C++ type usable as a backend implementation, identified nominally. -/
abbrev BackendTy := Nat

/-- A constructed backend object: its dynamic type and the constructor
arguments it was built from (arguments are modelled as naturals). -/
structure BackendInst where
  ty : BackendTy
  ctorArgs : List Nat
deriving DecidableEq, Repr

/-- A heap of live backend objects with a fresh-identifier counter. -/
structure Heap where
  next : Nat
  live : List (Nat × BackendInst)
deriving DecidableEq, Repr

/-- Allocate a new backend object; the new object's identifier is `h.next`. -/
def Heap.alloc (h : Heap) (inst : BackendInst) : Heap :=
  { next := h.next + 1, live := (h.next, inst) :: h.live }

/-- Deallocate the object with identifier `bid`. -/
def Heap.free (h : Heap) (bid : Nat) : Heap :=
  { h with live := h.live.filter (fun e => e.fst != bid) }

/-- Look a live object up by identifier. -/
def Heap.find (h : Heap) (bid : Nat) : Option BackendInst :=
  h.live.lookup bid

/-- The compile-time facts the templates are instantiated against:
which types derive from `BackendBase<Subject>` (resp. `UIBackend<Subject>`),
and which type is registered as `BackendDefaultBase<Subject>`
(resp. `UIBackendDefault<Subject>`). -/
structure TypeEnv where
  isBaseOf : BackendTy → Bool
  defaultTy : BackendTy

/-! ## BackendTraits (src/common/backend.h lines 90-125) -/

/-- A C++ type as seen by `BackendTraits`: whether it is an instance
`BackendSelectorTag<T>` of the selector-tag template (and which `T` it
carries), and the set of target types `A` for which
`declval<F>()(declval<A&>())` is well-formed. -/
structure CppTy where
  asSelectorTag : Option BackendTy
  invocableOn : List Nat
deriving DecidableEq, Repr

/-- `BackendTraits::is_selector<T>`: true exactly for instances of the
selector-tag template. -/
def is_selector (F : CppTy) : Bool :=
  F.asSelectorTag.isSome

/-- `BackendTraits::is_invocable<F, A&>`. -/
def is_invocable (F : CppTy) (A : Nat) : Bool :=
  F.invocableOn.contains A

/-- `BackendTraits::is_init<A, F>`: the `std::conditional_t` chain of the
source — a selector is never an init action; otherwise invocability on
`A&` decides. -/
def is_init (A : Nat) (F : CppTy) : Bool :=
  if is_selector F then false
  else if is_invocable F A then true else false

/-- `BackendSelectorTag<T>` / `UIBackendSelectorTag<T>`: a value-level tag
carrying the backend type to construct as its `::type` member. -/
structure BackendSelectorTag where
  type : BackendTy
deriving DecidableEq, Repr

/-- `UsesBackend::makeSelector<T>()`. -/
def makeSelector (t : BackendTy) : BackendSelectorTag :=
  { type := t }

/-! ## Constructor step semantics -/

/-- The member state of the classes derived from the facade and from the
private implementation, acted on by caller-supplied init actions
(the C2 scenario uses fields `x` and `y`). -/
structure PState where
  x : Nat
  y : Nat
deriving DecidableEq, Repr

/-- The object state a facade construction builds: the heap, the private
implementation's members `rep` (owning `unique_ptr`), `handle` (raw
observer), `q_ptr` (back-pointer to the facade), and the derived-class
member state `p`. -/
structure CState where
  heap : Heap
  rep : Option Nat
  handle : Option Nat
  q_ptr : Option Nat
  p : PState
deriving DecidableEq, Repr

/-- One initialisation step of a constructor, in source order.
`storeFacadeAction`/`storeImplAction` model the `WithExplicitInit` base
subobject storing the passed action; `runImplAction`/`runFacadeAction`
model the stored action being executed.

Modelled from the spec: `withexplicitinit.h` (`WithExplicitInit`,
`EXPLICIT_INIT`) is not among the repository's staged files; per the spec
and the doc comments in backend.h, the impl-targeted action runs during
the private implementation's construction and the facade-targeted action
runs in the facade constructor's body, after `d_ptr` is built. -/
inductive Step where
  | storeFacadeAction
  | storeImplAction
  | repDefaultInit
  | allocRep (ty : BackendTy) (ctorArgs : List Nat)
  | bindHandleToRep
  | bindHandleToBorrowed (bid : Nat)
  | bindQPtr (user : Nat)
  | runImplAction
  | runFacadeAction
deriving DecidableEq, Repr

/-- Interpret one step, given the facade-targeted and impl-targeted actions. -/
def execStep (init initMember : PState → PState) : Step → CState → CState
  | .storeFacadeAction, s => s
  | .storeImplAction, s => s
  | .repDefaultInit, s => { s with rep := none }
  | .allocRep ty args, s =>
      { s with heap := s.heap.alloc { ty := ty, ctorArgs := args }
             , rep := some s.heap.next }
  | .bindHandleToRep, s => { s with handle := s.rep }
  | .bindHandleToBorrowed bid, s => { s with handle := some bid }
  | .bindQPtr u, s => { s with q_ptr := some u }
  | .runImplAction, s => { s with p := initMember s.p }
  | .runFacadeAction, s => { s with p := init s.p }

/-- Run a constructor's steps left to right. -/
def runSteps (init initMember : PState → PState) (steps : List Step)
    (s : CState) : CState :=
  steps.foldl (fun acc st => execStep init initMember st acc) s

/-! ## WithBackend constructors (src/common/backend.h lines 372-429) -/

/-- Steps of `WithBackend(F&& init, const ImplSelector&, BackendUser& user, As&&... args)`:
store the impl action (`WithExplicitInit` base), `rep{make_unique<ImplSelector::type>(args...)}`,
`handle{rep.get()}`, `q_ptr{&user}`, then the derived private class runs the
stored action at the end of its own constructor. -/
def WithBackend_owned_steps (selector : BackendSelectorTag) (user : Nat)
    (args : List Nat) : List Step :=
  [ .storeImplAction
  , .allocRep selector.type args
  , .bindHandleToRep
  , .bindQPtr user
  , .runImplAction ]

/-- Steps of `WithBackend(F&& init, BackendUser& user, BackendBase<Subject>& backend)`:
store the impl action, `rep` stays default-initialised (empty `unique_ptr`),
`handle{&backend}`, `q_ptr{&user}`, then the stored action runs. -/
def WithBackend_borrowed_steps (user : Nat) (backend : Nat) : List Step :=
  [ .storeImplAction
  , .repDefaultInit
  , .bindHandleToBorrowed backend
  , .bindQPtr user
  , .runImplAction ]

/-- The `static_assert(std::is_base_of<BackendBase<Subject>, ImplSelector::type>, ...)`
in the owning `WithBackend` constructor ("Impl does not match interface"). -/
def WithBackend_owned_assert (env : TypeEnv) (selector : BackendSelectorTag) : Bool :=
  env.isBaseOf selector.type

/-- A build-time failure of a `static_assert`. -/
inductive CompileError where
  | implMismatch
deriving DecidableEq, Repr

/-- The compile stage for a selector-driven construction: the program only
builds (and its constructors only ever run) when the selected type derives
from `BackendBase<Subject>`. -/
def compileSelected (env : TypeEnv) (selector : BackendSelectorTag) :
    Except CompileError BackendSelectorTag :=
  if WithBackend_owned_assert env selector then .ok selector
  else .error .implMismatch

/-! ## UsesBackend constructors (src/common/backend.h lines 143-342) -/

/-- The neutral action `[](Derived&){}` / `[](PrivateWithBackend&){}`. -/
def noopInit : PState → PState := fun d => d

/-- Steps of the fully-explicit `UsesBackend(UsesBackendCtorTag_Explicit&, F&&, G&&,
const ImplSelector&, As&&...)`: store the facade action
(`WithExplicitInit<Derived>{init}`), then `d_ptr{new PrivateWithBackend{...}}`
(the owning `WithBackend` steps), then the derived facade class runs the
stored facade action at the end of its own constructor. -/
def UsesBackend_Explicit_steps (selector : BackendSelectorTag) (user : Nat)
    (args : List Nat) : List Step :=
  Step.storeFacadeAction :: WithBackend_owned_steps selector user args
    ++ [Step.runFacadeAction]

/-- Steps of `UsesBackend(F&& init, BackendBase<Subject>& backend)` (the
"Init-only" form): store the facade action, build `d_ptr` through the
borrowed `WithBackend` constructor (which delegates to the borrowed form
with a no-op impl action), then run the facade action. -/
def UsesBackend_InitOnly_steps (user : Nat) (backend : Nat) : List Step :=
  Step.storeFacadeAction :: WithBackend_borrowed_steps user backend
    ++ [Step.runFacadeAction]

/-- The fully-explicit constructor's behaviour. -/
def UsesBackend_Explicit (init initMember : PState → PState)
    (selector : BackendSelectorTag) (user : Nat) (args : List Nat)
    (s : CState) : CState :=
  runSteps init initMember (UsesBackend_Explicit_steps selector user args) s

/-- `UsesBackend(F&& init, BackendBase<Subject>& backend)`: references the
backend and runs the facade action; the impl action is the no-op passed by
the delegated-to borrowed `WithBackend` constructor. -/
def UsesBackend_InitOnly (init : PState → PState) (user : Nat) (backend : Nat)
    (s : CState) : CState :=
  runSteps init noopInit (UsesBackend_InitOnly_steps user backend) s

/-- `UsesBackend()`: delegates to the explicit form with two no-op actions
and `makeSelector<BackendDefaultBase<Subject>>()`. -/
def UsesBackend_Default (env : TypeEnv) (user : Nat) (s : CState) : CState :=
  UsesBackend_Explicit noopInit noopInit (makeSelector env.defaultTy) user [] s

/-- `UsesBackend(BackendBase<Subject>& backend)`: delegates to the Init-only
form with a no-op facade action. -/
def UsesBackend_Ref (user : Nat) (backend : Nat) (s : CState) : CState :=
  UsesBackend_InitOnly noopInit user backend s

/-- `UsesBackend(UsesBackendCtorTag_ActionQ&, T&&, As&&...)`: delegates to
the explicit form with a no-op impl action and the default selector. -/
def UsesBackend_ActionQ (env : TypeEnv) (init : PState → PState)
    (args : List Nat) (user : Nat) (s : CState) : CState :=
  UsesBackend_Explicit init noopInit (makeSelector env.defaultTy) user args s

/-- `UsesBackend(UsesBackendCtorTag_ActionD&, T&&, As&&...)`: delegates to
the explicit form with a no-op facade action and the default selector. -/
def UsesBackend_ActionD (env : TypeEnv) (initMember : PState → PState)
    (args : List Nat) (user : Nat) (s : CState) : CState :=
  UsesBackend_Explicit noopInit initMember (makeSelector env.defaultTy) user args s

/-- `UsesBackend(UsesBackendCtorTag_Selector&, T&&, As&&...)`: delegates to
the explicit form with two no-op actions and the passed selector. -/
def UsesBackend_Selector (selector : BackendSelectorTag) (args : List Nat)
    (user : Nat) (s : CState) : CState :=
  UsesBackend_Explicit noopInit noopInit selector user args s

/-- `UsesBackend(UsesBackendCtorTag_Actions&, F&&, G&&, As&&...)`: delegates
to the explicit form with both actions and the default selector. -/
def UsesBackend_Actions (env : TypeEnv) (init initMember : PState → PState)
    (args : List Nat) (user : Nat) (s : CState) : CState :=
  UsesBackend_Explicit init initMember (makeSelector env.defaultTy) user args s

/-- `UsesBackend(UsesBackendCtorTag_Args&, As&&...)`: delegates to the
explicit form with two no-op actions and the default selector. -/
def UsesBackend_Args (env : TypeEnv) (args : List Nat) (user : Nat)
    (s : CState) : CState :=
  UsesBackend_Explicit noopInit noopInit (makeSelector env.defaultTy) user args s

/-- Destroying the facade destroys `d_ptr` (`QScopedPointer`), whose
`unique_ptr rep` frees its target when non-empty; the raw `handle` is never
deleted. Returns the heap after teardown and the list of freed identifiers. -/
def destroyFacade (s : CState) : Heap × List Nat :=
  match s.rep with
  | some bid => (s.heap.free bid, [bid])
  | none => (s.heap, [])

/-- The result of `WithBackend::backend()`: the assertion
`assert(nullptr != handle)` fires on an unset handle, otherwise the handle
is dereferenced. -/
inductive BackendAccess where
  | ok (bid : Nat)
  | assertionFailure
deriving DecidableEq, Repr

/-- `WithBackend::backend()`. -/
def WithBackend_backend (s : CState) : BackendAccess :=
  match s.handle with
  | some bid => .ok bid
  | none => .assertionFailure

/-! ## WithUIBackend / UsesUIBackend (src/common/uibackend.h lines 118-270) -/

/-- The members of a `WithUIBackend` object: `uiRep` (owning `unique_ptr`),
`uiHandle` (raw observer), `q_ptr`, and the heap they live against. -/
structure UIWithState where
  heap : Heap
  uiRep : Option Nat
  uiHandle : Option Nat
  q_ptr : Option Nat
deriving DecidableEq, Repr

/-- `WithUIBackend(ImplSelector&&, UIBackendUser& user, As&&... args)`:
`uiRep{make_unique<ImplSelector::type>(args...)}`, `uiHandle{uiRep.get()}`,
`q_ptr{&user}`. -/
def WithUIBackend_selected (selector : BackendSelectorTag) (user : Nat)
    (args : List Nat) (h : Heap) : UIWithState :=
  { heap := h.alloc { ty := selector.type, ctorArgs := args }
  , uiRep := some h.next
  , uiHandle := some h.next
  , q_ptr := some user }

/-- `WithUIBackend(UIBackendUser& user, UIBackend<Subject>& backend)`:
`uiRep` stays default-initialised (empty), `uiHandle{&backend}`, `q_ptr{&user}`. -/
def WithUIBackend_borrowed (user : Nat) (backend : Nat) (h : Heap) : UIWithState :=
  { heap := h, uiRep := none, uiHandle := some backend, q_ptr := some user }

/-- The `static_assert(std::is_base_of<UIBackend<Subject>, ImplSelector::type>, ...)`
in the owning `WithUIBackend` constructor ("Impl does not match interface"). -/
def WithUIBackend_selected_assert (env : TypeEnv) (selector : BackendSelectorTag) : Bool :=
  env.isBaseOf selector.type

/-- The compile stage for a selector-driven `WithUIBackend` construction. -/
def compileUISelected (env : TypeEnv) (selector : BackendSelectorTag) :
    Except CompileError BackendSelectorTag :=
  if WithUIBackend_selected_assert env selector then .ok selector
  else .error .implMismatch

/-- `UsesUIBackend(ImplSelector&&, As&&...)`: builds `d_ptr` through the
selector `WithUIBackend` constructor. -/
def UsesUIBackend_selector (selector : BackendSelectorTag) (user : Nat)
    (args : List Nat) (h : Heap) : UIWithState :=
  WithUIBackend_selected selector user args h

/-- `UsesUIBackend(As&&... args)`: delegates to the selector form with
`UIBackendSelector<UIBackendDefault<Subject>>`. -/
def UsesUIBackend_default (env : TypeEnv) (user : Nat) (args : List Nat)
    (h : Heap) : UIWithState :=
  UsesUIBackend_selector (makeSelector env.defaultTy) user args h

/-- `UsesUIBackend(UIBackend<Subject>& backend)`: builds `d_ptr` through the
borrowed `WithUIBackend` constructor. -/
def UsesUIBackend_ref (user : Nat) (backend : Nat) (h : Heap) : UIWithState :=
  WithUIBackend_borrowed user backend h

/-- Destroying the UI facade destroys `d_ptr`; `uiRep` frees its target when
non-empty, `uiHandle` is never deleted. -/
def destroyUIFacade (s : UIWithState) : Heap × List Nat :=
  match s.uiRep with
  | some bid => (s.heap.free bid, [bid])
  | none => (s.heap, [])

/-- `WithUIBackend::backend()`: asserts `nullptr != uiHandle`, then
dereferences. -/
def WithUIBackend_backend (s : UIWithState) : BackendAccess :=
  match s.uiHandle with
  | some bid => .ok bid
  | none => .assertionFailure

/-! ## Helper lemmas on the heap -/

theorem lookup_filter_bne (bid : Nat) (l : List (Nat × BackendInst)) :
    (l.filter (fun e => e.fst != bid)).lookup bid = none := by
  induction l with
  | nil => rfl
  | cons e t ih =>
    rcases e with ⟨k, v⟩
    by_cases hk : k = bid
    · subst hk
      simpa using ih
    · simp only [List.filter]
      have hkb : ((k, v).fst != bid) = true := by
        simpa using hk
      rw [hkb]
      simp only [List.lookup]
      have : (bid == k) = false := by
        simp [Ne.symm hk]
      rw [this]
      exact ih

theorem find_free_self (h : Heap) (bid : Nat) : (h.free bid).find bid = none :=
  lookup_filter_bne bid h.live

theorem find_alloc_self (h : Heap) (inst : BackendInst) :
    (h.alloc inst).find h.next = some inst := by
  simp [Heap.alloc, Heap.find, List.lookup]

/-! ## Claim theorems -/

/-- C5: an argument type matching the selector-tag shape is never classified
as an initialization action, even when it is also invocable; only
non-selector invocable types are classified as actions. -/
theorem selector_takes_precedence_over_action (A : Nat) (F : CppTy) :
    (is_selector F = true → is_init A F = false)
    ∧ (is_init A F = true → is_selector F = false ∧ is_invocable F A = true) := by
  constructor
  · intro hs
    simp [is_init, hs]
  · intro hi
    by_cases hs : is_selector F = true
    · simp [is_init, hs] at hi
    · refine ⟨by simpa using hs, ?_⟩
      by_cases hinv : is_invocable F A = true
      · exact hinv
      · simp [is_init, hs, hinv] at hi

/-- C1: the reference (borrow) constructor forms leave `rep`/`uiRep` empty
and only set the non-owning handle, so facade teardown frees nothing and
the borrowed backend stays live; the owning (default/selector/explicit)
forms free the internally allocated backend instance exactly once at
facade teardown. -/
theorem borrow_survives_owned_freed_once (init initMember : PState → PState)
    (selector : BackendSelectorTag) (user backend : Nat) (args : List Nat)
    (s : CState) (h : Heap) :
    ((UsesBackend_Ref user backend s).rep = none
      ∧ (UsesBackend_Ref user backend s).handle = some backend
      ∧ destroyFacade (UsesBackend_Ref user backend s) = (s.heap, [])
      ∧ (destroyFacade (UsesBackend_Ref user backend s)).1.find backend
          = s.heap.find backend)
    ∧ ((UsesUIBackend_ref user backend h).uiRep = none
      ∧ (UsesUIBackend_ref user backend h).uiHandle = some backend
      ∧ destroyUIFacade (UsesUIBackend_ref user backend h) = (h, [])
      ∧ (destroyUIFacade (UsesUIBackend_ref user backend h)).1.find backend
          = h.find backend)
    ∧ ((destroyFacade (UsesBackend_Explicit init initMember selector user args s)).2
          = [s.heap.next]
      ∧ (UsesBackend_Explicit init initMember selector user args s).heap.find s.heap.next
          = some { ty := selector.type, ctorArgs := args }
      ∧ (destroyFacade (UsesBackend_Explicit init initMember selector user args s)).1.find
          s.heap.next = none)
    ∧ ((destroyUIFacade (UsesUIBackend_selector selector user args h)).2 = [h.next]
      ∧ (UsesUIBackend_selector selector user args h).heap.find h.next
          = some { ty := selector.type, ctorArgs := args }
      ∧ (destroyUIFacade (UsesUIBackend_selector selector user args h)).1.find
          h.next = none) := by
  refine ⟨⟨rfl, rfl, rfl, rfl⟩, ⟨rfl, rfl, rfl, rfl⟩, ⟨rfl, ?_, ?_⟩, ⟨rfl, ?_, ?_⟩⟩
  · exact find_alloc_self s.heap _
  · exact find_free_self _ _
  · exact find_alloc_self h _
  · exact find_free_self _ _

/-- C2: in the fully-explicit construction the impl-targeted action occupies
an earlier constructor step than the facade-targeted action, the resulting
member state is the facade action applied after the impl action, and the
X/Y scenario yields Y = 2. -/
theorem impl_action_before_facade_action (init initMember : PState → PState)
    (selector : BackendSelectorTag) (user : Nat) (args : List Nat) (s : CState) :
    ((UsesBackend_Explicit_steps selector user args)[5]? = some Step.runImplAction
      ∧ (UsesBackend_Explicit_steps selector user args)[6]? = some Step.runFacadeAction
      ∧ (UsesBackend_Explicit_steps selector user args).length = 7)
    ∧ (UsesBackend_Explicit init initMember selector user args s).p
        = init (initMember s.p)
    ∧ (UsesBackend_Explicit (fun d => { d with y := d.x + 1 })
        (fun d => { d with x := 1 }) selector user args s).p.y = 2 := by
  exact ⟨⟨rfl, rfl, rfl⟩, rfl, rfl⟩

/-- C3: constructing through a selector yields a backend instance of exactly
the carried type, built from exactly the forwarded arguments, in both the
`UsesBackend` and the `UsesUIBackend` machinery; in particular a selector
naming type 7 with argument 42 yields an instance of type 7 built from 42. -/
theorem selector_yields_exact_type_and_args (selector : BackendSelectorTag)
    (user : Nat) (args : List Nat) (s : CState) (h : Heap) :
    ((UsesBackend_Selector selector args user s).handle = some s.heap.next
      ∧ (UsesBackend_Selector selector args user s).heap.find s.heap.next
          = some { ty := selector.type, ctorArgs := args })
    ∧ ((UsesUIBackend_selector selector user args h).uiHandle = some h.next
      ∧ (UsesUIBackend_selector selector user args h).heap.find h.next
          = some { ty := selector.type, ctorArgs := args })
    ∧ (UsesUIBackend_selector (makeSelector 7) user [42] h).heap.find h.next
        = some { ty := 7, ctorArgs := [42] } := by
  refine ⟨⟨rfl, ?_⟩, ⟨rfl, ?_⟩, ?_⟩
  · exact find_alloc_self s.heap _
  · exact find_alloc_self h _
  · exact find_alloc_self h _

/-- C4: constructing the facade with no arguments yields a private
implementation whose backend handle is non-null and refers to a freshly
constructed instance of the registered default backend type. -/
theorem default_ctor_yields_default_backend (env : TypeEnv) (user : Nat)
    (s : CState) (h : Heap) :
    ((UsesBackend_Default env user s).handle = some s.heap.next
      ∧ (UsesBackend_Default env user s).heap.find s.heap.next
          = some { ty := env.defaultTy, ctorArgs := [] })
    ∧ ((UsesUIBackend_default env user [] h).uiHandle = some h.next
      ∧ (UsesUIBackend_default env user [] h).heap.find h.next
          = some { ty := env.defaultTy, ctorArgs := [] }) := by
  refine ⟨⟨rfl, ?_⟩, ⟨rfl, ?_⟩⟩
  · exact find_alloc_self s.heap _
  · exact find_alloc_self h _

/-- C6: a selector whose carried type does not derive from the Subject's
capability interface fails the static assertion, so the program does not
build and the (total, fault-free) runtime constructor semantics is never
reached for such a pairing. -/
theorem bad_pairing_is_build_failure (env : TypeEnv)
    (selector : BackendSelectorTag)
    (hbase : env.isBaseOf selector.type = false) :
    WithBackend_owned_assert env selector = false
    ∧ compileSelected env selector = Except.error CompileError.implMismatch
    ∧ WithUIBackend_selected_assert env selector = false
    ∧ compileUISelected env selector = Except.error CompileError.implMismatch := by
  refine ⟨hbase, ?_, hbase, ?_⟩
  · simp [compileSelected, WithBackend_owned_assert, hbase]
  · simp [compileUISelected, WithUIBackend_selected_assert, hbase]

/-- An environment in which only type 0 implements the capability interface. -/
def envNoMock : TypeEnv :=
  { isBaseOf := fun t => t == 0, defaultTy := 0 }

/-- Witness for C6: selecting type 1 under `envNoMock` is rejected at the
compile stage. -/
theorem bad_pairing_is_build_failure_witness :
    WithBackend_owned_assert envNoMock (makeSelector 1) = false
    ∧ compileSelected envNoMock (makeSelector 1)
        = Except.error CompileError.implMismatch
    ∧ WithUIBackend_selected_assert envNoMock (makeSelector 1) = false
    ∧ compileUISelected envNoMock (makeSelector 1)
        = Except.error CompileError.implMismatch :=
  bad_pairing_is_build_failure envNoMock (makeSelector 1) (by decide)

/-- C7: `backend()` fails its assertion exactly on an unset handle, and
every constructor form leaves the handle non-null, so after construction
the accessor returns the one associated backend and the assertion never
fires. -/
theorem backend_accessor_ok_after_construction (env : TypeEnv)
    (init initMember : PState → PState) (selector : BackendSelectorTag)
    (user backend : Nat) (args : List Nat) (s : CState) (h : Heap) :
    WithBackend_backend (UsesBackend_Default env user s) = .ok s.heap.next
    ∧ WithBackend_backend (UsesBackend_Ref user backend s) = .ok backend
    ∧ WithBackend_backend (UsesBackend_ActionQ env init args user s) = .ok s.heap.next
    ∧ WithBackend_backend (UsesBackend_ActionD env initMember args user s) = .ok s.heap.next
    ∧ WithBackend_backend (UsesBackend_Selector selector args user s) = .ok s.heap.next
    ∧ WithBackend_backend (UsesBackend_Actions env init initMember args user s) = .ok s.heap.next
    ∧ WithBackend_backend (UsesBackend_InitOnly init user backend s) = .ok backend
    ∧ WithBackend_backend (UsesBackend_Explicit init initMember selector user args s) = .ok s.heap.next
    ∧ WithBackend_backend (UsesBackend_Args env args user s) = .ok s.heap.next
    ∧ WithUIBackend_backend (UsesUIBackend_default env user args h) = .ok h.next
    ∧ WithUIBackend_backend (UsesUIBackend_selector selector user args h) = .ok h.next
    ∧ WithUIBackend_backend (UsesUIBackend_ref user backend h) = .ok backend
    ∧ (∀ c : CState, WithBackend_backend c = .assertionFailure ↔ c.handle = none)
    ∧ (∀ u : UIWithState, WithUIBackend_backend u = .assertionFailure ↔ u.uiHandle = none) := by
  refine ⟨rfl, rfl, rfl, rfl, rfl, rfl, rfl, rfl, rfl, rfl, rfl, rfl, ?_, ?_⟩
  · intro c
    cases hc : c.handle <;> simp [WithBackend_backend, hc]
  · intro u
    cases hu : u.uiHandle <;> simp [WithUIBackend_backend, hu]

/-- The empty heap. -/
def heap0 : Heap := { next := 0, live := [] }

/-- A member state with both fields zero. -/
def pstate0 : PState := { x := 0, y := 0 }

/-- An object state before construction. -/
def cstate0 : CState :=
  { heap := heap0, rep := none, handle := none, q_ptr := none, p := pstate0 }

/-- Counterexample for C8 as stated: the reference-only form is not
behaviourally equal to the fully-explicit form invoked with neutral no-op
actions and the default selector — the explicit form always allocates and
owns a fresh backend (`rep` set), the reference form never does. -/
theorem reference_form_differs_from_explicit_form :
    UsesBackend_Ref 0 7 cstate0
      ≠ UsesBackend_Explicit noopInit noopInit (makeSelector 0) 0 [] cstate0 := by
  decide

/-- C8 amended: the six owning forms (and trivially the explicit form
itself) delegate to the fully-explicit form with neutral no-op actions
and/or the default selector; the two reference forms instead delegate to
the reference-with-facade-action form with a no-op action, and can never
equal an explicit-form construction since the explicit form always sets
`rep` to a freshly allocated backend while the reference path leaves it
empty. -/
theorem construction_forms_delegation (env : TypeEnv)
    (init initMember : PState → PState) (selector : BackendSelectorTag)
    (user backend : Nat) (args : List Nat) (s : CState) :
    UsesBackend_Default env user s
        = UsesBackend_Explicit noopInit noopInit (makeSelector env.defaultTy) user [] s
    ∧ UsesBackend_ActionQ env init args user s
        = UsesBackend_Explicit init noopInit (makeSelector env.defaultTy) user args s
    ∧ UsesBackend_ActionD env initMember args user s
        = UsesBackend_Explicit noopInit initMember (makeSelector env.defaultTy) user args s
    ∧ UsesBackend_Selector selector args user s
        = UsesBackend_Explicit noopInit noopInit selector user args s
    ∧ UsesBackend_Actions env init initMember args user s
        = UsesBackend_Explicit init initMember (makeSelector env.defaultTy) user args s
    ∧ UsesBackend_Args env args user s
        = UsesBackend_Explicit noopInit noopInit (makeSelector env.defaultTy) user args s
    ∧ UsesBackend_Ref user backend s = UsesBackend_InitOnly noopInit user backend s
    ∧ (UsesBackend_InitOnly init user backend s).rep = none
    ∧ (UsesBackend_Explicit init initMember selector user args s).rep = some s.heap.next :=
  ⟨rfl, rfl, rfl, rfl, rfl, rfl, rfl, rfl, rfl⟩

/-! ## MainWindow file handlers (src/gui/mainwindow.cpp lines 168-211) -/

/-- The node-graph scene (`QtNodes::FlowScene`), abstracted to its content. -/
structure Scene where
  nodes : List Nat
deriving DecidableEq, Repr

/-- The scene after `clearScene()`. -/
def Scene.cleared : Scene := { nodes := [] }

/-- The error messages `cds_error` logs in the two handlers. -/
inductive LogMsg where
  | fileDoesNotExist
  | couldNotOpen
  | fileNameEmpty
deriving DecidableEq, Repr

/-- Observable events of `handleLoadAction`, in order of occurrence. -/
inductive UIEvent where
  | clearScene
  | fileDialogOpened
  | errorLogged (msg : LogMsg)
  | sceneLoaded (bytes : List Nat)
deriving DecidableEq, Repr

/-- The external world `handleLoadAction` interacts with: the file name the
dialog returns, whether `QFileInfo::exists` holds for it, whether
`file.open(ReadOnly)` succeeds, and the bytes `readAll()` yields. -/
structure LoadEnv where
  fileName : List Char
  fileFound : Bool
  opensForRead : Bool
  contents : List Nat
deriving DecidableEq, Repr

/-- `MainWindow::handleLoadAction`: clears the scene first, then obtains the
file name from the dialog, then checks existence and readability, returning
early (scene already discarded) on either failure; on success loads the
file's bytes into the scene. -/
def handleLoadAction (env : LoadEnv) (_scene : Scene) : Scene × List UIEvent :=
  let scene := Scene.cleared
  let trace := [UIEvent.clearScene, UIEvent.fileDialogOpened]
  if !env.fileFound then
    (scene, trace ++ [.errorLogged .fileDoesNotExist])
  else if !env.opensForRead then
    (scene, trace ++ [.errorLogged .couldNotOpen])
  else
    ({ nodes := env.contents }, trace ++ [.sceneLoaded env.contents])

/-- The external world `handleSaveAction` interacts with. -/
structure SaveEnv where
  chosenName : List Char
  opensForWrite : Bool
  sceneBytes : List Nat
deriving DecidableEq, Repr

/-- The characters of the `".cds"` suffix. -/
def cdsSuffix : List Char := ['.', 'c', 'd', 's']

/-- `QString::endsWith(suffix, Qt::CaseInsensitive)`. -/
def endsWithCI (s suffix : List Char) : Bool :=
  List.isSuffixOf (suffix.map Char.toLower) (s.map Char.toLower)

/-- What `handleSaveAction` did: the name of the file it constructed and
tried to open (if any), the write it performed (file name and bytes, if
any), and the errors it logged. -/
structure SaveResult where
  openedFile : Option (List Char)
  written : Option (List Char × List Nat)
  log : List LogMsg
deriving DecidableEq, Repr

/-- `MainWindow::handleSaveAction`: on a non-empty dialog result, appends
`".cds"` unless the name already ends with it case-insensitively, opens the
file, and writes the serialized scene only if the open succeeded; on an
empty result, logs an error and touches no file. -/
def handleSaveAction (env : SaveEnv) : SaveResult :=
  if !env.chosenName.isEmpty then
    let fileName :=
      if !endsWithCI env.chosenName cdsSuffix then env.chosenName ++ cdsSuffix
      else env.chosenName
    if env.opensForWrite then
      { openedFile := some fileName
      , written := some (fileName, env.sceneBytes)
      , log := [] }
    else
      { openedFile := some fileName, written := none, log := [] }
  else
    { openedFile := none, written := none, log := [LogMsg.fileNameEmpty] }

/-- C9: `handleLoadAction` clears the scene before the dialog runs and
before any file check, its result never depends on the previous scene, and
on a missing or unopenable file it returns early with the scene left
cleared and nothing loaded — loading is not atomic on error. -/
theorem load_clears_scene_before_checks (env : LoadEnv)
    (scene scene2 : Scene) :
    ((handleLoadAction env scene).2)[0]? = some UIEvent.clearScene
    ∧ ((handleLoadAction env scene).2)[1]? = some UIEvent.fileDialogOpened
    ∧ handleLoadAction env scene = handleLoadAction env scene2
    ∧ ((env.fileFound = false ∨ env.opensForRead = false) →
        (handleLoadAction env scene).1 = Scene.cleared
        ∧ ∀ b, UIEvent.sceneLoaded b ∉ (handleLoadAction env scene).2) := by
  refine ⟨?_, ?_, rfl, ?_⟩
  · cases hf : env.fileFound <;> cases ho : env.opensForRead <;>
      simp [handleLoadAction, hf, ho]
  · cases hf : env.fileFound <;> cases ho : env.opensForRead <;>
      simp [handleLoadAction, hf, ho]
  · intro herr
    rcases hf : env.fileFound with _ | _ <;> rcases ho : env.opensForRead with _ | _ <;>
      simp_all [handleLoadAction]

/-- C10: `handleSaveAction` with an empty name writes nothing and logs an
error; with a non-empty name it opens exactly the chosen name with
`".cds"` appended unless already present case-insensitively, and writes
the serialized scene bytes to that file exactly when the open succeeds. -/
theorem save_appends_suffix_and_writes_on_open (env : SaveEnv) :
    (env.chosenName = [] →
      handleSaveAction env
        = { openedFile := none, written := none, log := [LogMsg.fileNameEmpty] })
    ∧ (env.chosenName ≠ [] →
        (handleSaveAction env).openedFile
          = some (if endsWithCI env.chosenName cdsSuffix then env.chosenName
                  else env.chosenName ++ cdsSuffix)
        ∧ (endsWithCI env.chosenName cdsSuffix = false →
            (handleSaveAction env).openedFile = some (env.chosenName ++ cdsSuffix))
        ∧ (handleSaveAction env).log = [])
    ∧ ((handleSaveAction env).written.isSome
        ↔ (env.opensForWrite = true ∧ env.chosenName ≠ []))
    ∧ (∀ f bytes, (handleSaveAction env).written = some (f, bytes) →
        (handleSaveAction env).openedFile = some f ∧ bytes = env.sceneBytes) := by
  by_cases hn : env.chosenName = []
  · have hne : env.chosenName.isEmpty = true := by simp [hn]
    refine ⟨fun _ => by simp [handleSaveAction, hne], fun hc => absurd hn hc, ?_, ?_⟩
    · simp [handleSaveAction, hne, hn]
    · intro f bytes hwr
      simp [handleSaveAction, hne] at hwr
  · have hne : env.chosenName.isEmpty = false := by simpa using hn
    refine ⟨fun h0 => absurd h0 hn, fun _ => ?_, ?_, ?_⟩
    · cases hsfx : endsWithCI env.chosenName cdsSuffix <;>
        cases hw : env.opensForWrite <;>
        simp [handleSaveAction, hne, hsfx, hw]
    · cases hw : env.opensForWrite <;>
        simp [handleSaveAction, hne, hw, hn]
    · intro f bytes hwr
      cases hw : env.opensForWrite <;>
        simp [handleSaveAction, hne, hw] at hwr ⊢
      exact ⟨hwr.1, hwr.2.symm⟩
